import Mathlib

/-! Shallow embedding of `src/scoutfs/config.py` (ScoutFSConfig and
get_scoutfs_config) together with proofs about its behaviour.

Python dictionaries are modelled as association lists (`Dict`) whose lookup
returns the first matching key; real Python dicts never hold a duplicate key,
so theorems that need it carry a `Nodup` hypothesis on the keys.  Python's
`None` is the `Value.none` constructor; exceptions are modelled by `Except`
with an explicit `PyError` kind (`ValueError`, `KeyError`, `AttributeError`).
Python floats are modelled exactly (as rationals, plus infinity/NaN markers):
no claim below inspects rounded float arithmetic.  The numeric conversions
`float(...)` / `int(...)` used by `DEFAULT_CONFIG` are modelled on the CPython
grammar for ASCII input: optional surrounding whitespace, optional sign,
digit runs with single underscores between digits, and for floats an optional
fractional part, exponent part, and the `inf`/`infinity`/`nan` spellings.
-/

/-- A Python runtime value as it can appear in a configuration dict. -/
inductive PyFloat where
  | finite (q : ℚ)
  | inf (neg : Bool)
  | nan
  deriving DecidableEq

inductive Value where
  | none
  | str (s : String)
  | bool (b : Bool)
  | int (n : Int)
  | float (f : PyFloat)
  deriving DecidableEq

/-- The kinds of exception the embedded code can raise. -/
inductive PyError where
  | valueError (msg : String)
  | keyError (key : String)
  | attributeError (msg : String)
  deriving DecidableEq

instance {ε α : Type} [DecidableEq ε] [DecidableEq α] : DecidableEq (Except ε α) := fun
  | Except.error e, Except.error f =>
      if h : e = f then isTrue (by rw [h])
      else isFalse (fun c => h (Except.error.inj c))
  | Except.error _, Except.ok _ => isFalse (fun c => Except.noConfusion c)
  | Except.ok _, Except.error _ => isFalse (fun c => Except.noConfusion c)
  | Except.ok a, Except.ok b =>
      if h : a = b then isTrue (by rw [h])
      else isFalse (fun c => h (Except.ok.inj c))

abbrev Dict := List (String × Value)

abbrev Env := List (String × String)

/-- Lookup in the process environment (`os.environ.get`). -/
def envGet : Env → String → Option String
  | [], _ => Option.none
  | (k, v) :: rest, key => if k = key then some v else envGet rest key

/-- Python `d.get(key)` / `d[key]` lookup: the value stored at `key`. -/
def dictGet : Dict → String → Option Value
  | [], _ => Option.none
  | (k, v) :: rest, key => if k = key then some v else dictGet rest key

/-- Python `d[key] = v`: replace the binding if the key is present, else append. -/
def dictInsert : Dict → String → Value → Dict
  | [], key, v => [(key, v)]
  | (k, w) :: rest, key, v =>
      if k = key then (k, v) :: rest else (k, w) :: dictInsert rest key v

/-- Python `d.update(o)`: insert every pair of `o` into `d`, left to right. -/
def dictUpdate (d : Dict) : Dict → Dict
  | [] => d
  | (k, v) :: rest => dictUpdate (dictInsert d k v) rest

/-- The filter used in `load`: `v is not None`. -/
def notNone : Value → Bool
  | Value.none => false
  | _ => true

/-- Python truthiness of `d.get(key)` as used by `validate` (`not config.get(...)`):
an absent key yields `None`, and `None`, `""`, `False`, `0` and `0.0` are falsy. -/
def falsy : Option Value → Bool
  | Option.none => true
  | some Value.none => true
  | some (Value.str s) => s == ""
  | some (Value.bool b) => !b
  | some (Value.int n) => n == 0
  | some (Value.float (PyFloat.finite q)) => decide (q = 0)
  | some (Value.float _) => false

/-- Python `s.startswith(p)` (case-sensitive prefix test), on character lists. -/
def charPrefixEq : List Char → List Char → Bool
  | [], _ => true
  | _ :: _, [] => false
  | p :: ps, c :: cs => p == c && charPrefixEq ps cs

def pyStartsWith (s pat : String) : Bool :=
  charPrefixEq pat.data s.data

/-- Python `s.lower()` (ASCII case folding suffices for the strings involved). -/
def pyLower (s : String) : String :=
  String.mk (s.data.map Char.toLower)

/-- Python `s.strip()` on character lists (ASCII whitespace). -/
def stripWS (cs : List Char) : List Char :=
  ((cs.dropWhile Char.isWhitespace).reverse.dropWhile Char.isWhitespace).reverse

/-- Scan a digit run that may contain single underscores between digits
(CPython numeric-literal grammar).  Returns the value read, the number of
digits consumed, and the unconsumed remainder; an ill-placed underscore stops
the scan so that the caller rejects the leftover. -/
def scanDigits : List Char → Nat → Nat → Nat × Nat × List Char
  | [], acc, n => (acc, n, [])
  | c :: rest, acc, n =>
      if c.isDigit then scanDigits rest (acc * 10 + (c.toNat - 48)) (n + 1)
      else if c = '_' && n ≠ 0 then
        match rest with
        | c2 :: _ => if c2.isDigit then scanDigits rest acc n else (acc, n, c :: rest)
        | [] => (acc, n, c :: rest)
      else (acc, n, c :: rest)

/-- Python `int(s)` for base 10: strip, optional sign, nonempty digit run. -/
def pyIntParse (s : String) : Option Int :=
  let core : List Char → Option Int := fun cs =>
    match scanDigits cs 0 0 with
    | (v, n, rest) => if n ≠ 0 && rest.isEmpty then some (v : Int) else Option.none
  match stripWS s.data with
  | '+' :: rest => core rest
  | '-' :: rest => (core rest).map Neg.neg
  | cs => core cs

/-- The finite-literal part of Python `float(s)`:
`digits [. digits] [exponent]` with at least one mantissa digit.  The value
`(intpart.fracpart) * 10^±exp` is assembled as a single exact fraction
(`mkRat`): the claims below never inspect binary-float rounding. -/
def pyFloatFinite (cs : List Char) : Option ℚ :=
  match scanDigits cs 0 0 with
  | (ival, n1, r1) =>
    let fracStep : Nat × Nat × List Char :=
      match r1 with
      | '.' :: rest => scanDigits rest 0 0
      | _ => (0, 0, r1)
    match fracStep with
    | (fval, n2, r2) =>
      if n1 + n2 = 0 then Option.none
      else
        let num : Nat := ival * 10 ^ n2 + fval
        match r2 with
        | [] => some (mkRat num (10 ^ n2))
        | 'e' :: rest =>
            let signedRest : Bool × List Char :=
              match rest with
              | '+' :: r => (false, r)
              | '-' :: r => (true, r)
              | r => (false, r)
            match scanDigits signedRest.2 0 0 with
            | (ev, n3, r3) =>
              if n3 ≠ 0 && r3.isEmpty then
                some (if signedRest.1 then mkRat num (10 ^ n2 * 10 ^ ev)
                      else mkRat (num * 10 ^ ev) (10 ^ n2))
              else Option.none
        | _ => Option.none

/-- Python `float(s)`: strip and case-fold, optional sign, then either one of
the special spellings `inf` / `infinity` / `nan` or a finite literal. -/
def pyFloatParse (s : String) : Option PyFloat :=
  let body : Bool × List Char :=
    match stripWS (s.data.map Char.toLower) with
    | '+' :: rest => (false, rest)
    | '-' :: rest => (true, rest)
    | cs => (false, cs)
  if body.2 = "inf".data || body.2 = "infinity".data then some (PyFloat.inf body.1)
  else if body.2 = "nan".data then some PyFloat.nan
  else (pyFloatFinite body.2).map PyFloat.finite

/-- Python `float(s)` as an expression that can raise `ValueError`. -/
def pyFloatOf (s : String) : Except PyError PyFloat :=
  match pyFloatParse s with
  | some f => Except.ok f
  | Option.none => Except.error (PyError.valueError ("could not convert string to float: " ++ s))

/-- Python `int(s)` as an expression that can raise `ValueError`. -/
def pyIntOf (s : String) : Except PyError Int :=
  match pyIntParse s with
  | some n => Except.ok n
  | Option.none => Except.error (PyError.valueError ("invalid literal for int with base 10: " ++ s))

namespace ScoutFSConfig

/-- The class attribute `ScoutFSConfig.DEFAULT_CONFIG`, evaluated once when
the module is loaded, over the environment `env`.  Entries appear in source order; the
unguarded `float(...)` / `int(...)` conversions are the only failure points. -/
def DEFAULT_CONFIG (env : Env) : Except PyError Dict :=
  match pyFloatOf ((envGet env "SCOUTFS_CONNECT_TIMEOUT").getD "30.0") with
  | Except.error e => Except.error e
  | Except.ok connect_timeout =>
  match pyFloatOf ((envGet env "SCOUTFS_REQUEST_TIMEOUT").getD "300.0") with
  | Except.error e => Except.error e
  | Except.ok request_timeout =>
  match pyIntOf ((envGet env "SCOUTFS_MAX_RETRIES").getD "3") with
  | Except.error e => Except.error e
  | Except.ok max_retries =>
  match pyFloatOf ((envGet env "SCOUTFS_RETRY_DELAY").getD "1.0") with
  | Except.error e => Except.error e
  | Except.ok retry_delay =>
  match pyIntOf ((envGet env "SCOUTFS_TOKEN_CACHE_TTL").getD "300") with
  | Except.error e => Except.error e
  | Except.ok token_cache_ttl =>
  Except.ok
    [ ("api_url", Value.str
        (match envGet env "SCOUTFS_API_URL" with
         | some u => u
         | Option.none =>
             "https://" ++ (envGet env "SCOUTFS_API_HOST").getD "hsm.dmawi.de" ++ ":" ++
             (envGet env "SCOUTFS_API_PORT").getD "8080" ++ "/v" ++
             (envGet env "SCOUTFS_API_VERSION").getD "1")),
      ("username",
        match envGet env "SCOUTFS_USERNAME" with
        | some u => Value.str u
        | Option.none => Value.none),
      ("password",
        match envGet env "SCOUTFS_PASSWORD" with
        | some p => Value.str p
        | Option.none => Value.none),
      ("ssl_verify", Value.bool
        (pyLower ((envGet env "SCOUTFS_SSL_VERIFY").getD "False") == "true")),
      ("ssl_cert",
        match envGet env "SCOUTFS_SSL_CERT" with
        | some c => Value.str c
        | Option.none => Value.none),
      ("connect_timeout", Value.float connect_timeout),
      ("request_timeout", Value.float request_timeout),
      ("max_retries", Value.int max_retries),
      ("retry_delay", Value.float retry_delay),
      ("token_cache_ttl", Value.int token_cache_ttl) ]

/-- The argument of `load`: `None`, a file-path string, or an override dict. -/
inductive LoadArg where
  | none
  | str (s : String)
  | dict (d : Dict)
  deriving DecidableEq

/-- Method `ScoutFSConfig.load`: copy the defaults snapshot; return it unchanged for
`None` or a string; for a dict, update with the pairs whose value is not
`None`.  `defaults` is the already-computed class attribute `DEFAULT_CONFIG`. -/
def load (defaults : Dict) (config : LoadArg) : Dict :=
  let result := defaults
  match config with
  | LoadArg.none => result
  | LoadArg.str _ => result
  | LoadArg.dict d => dictUpdate result (d.filter fun kv => notNone kv.2)

/-- Method `ScoutFSConfig.validate`: raise `ValueError` when `username` or `password`
is falsy, then test `config["api_url"].startswith(("http://", "https://"))`
(which is a `KeyError` when the key is absent and an `AttributeError` when the
value is not a string). -/
def validate (config : Dict) : Except PyError Unit :=
  if falsy (dictGet config "username") || falsy (dictGet config "password") then
    Except.error (PyError.valueError
      "Both username and password must be provided for authentication")
  else
    match dictGet config "api_url" with
    | Option.none => Except.error (PyError.keyError "api_url")
    | some (Value.str u) =>
        if pyStartsWith u "http://" || pyStartsWith u "https://" then Except.ok ()
        else Except.error (PyError.valueError "API URL must start with http:// or https://")
    | some _ => Except.error (PyError.attributeError "object has no attribute startswith")

end ScoutFSConfig

/-- Function `get_scoutfs_config(**overrides)`: load the keyword overrides,
validate the result, and return it; a validation exception propagates. -/
def get_scoutfs_config (defaults : Dict) (overrides : Dict) : Except PyError Dict :=
  let config := ScoutFSConfig.load defaults (ScoutFSConfig.LoadArg.dict overrides)
  match ScoutFSConfig.validate config with
  | Except.error e => Except.error e
  | Except.ok _ => Except.ok config

/-- The credentials `ValueError` raised by `validate`. -/
def credentialsErr : PyError :=
  PyError.valueError "Both username and password must be provided for authentication"

/-- The URL-scheme `ValueError` raised by `validate`. -/
def urlSchemeErr : PyError :=
  PyError.valueError "API URL must start with http:// or https://"

theorem dictGet_insert (d : Dict) (k : String) (v : Value) (key : String) :
    dictGet (dictInsert d k v) key = if k = key then some v else dictGet d key := by
  induction d with
  | nil => simp [dictInsert, dictGet]
  | cons hd tl ih =>
      obtain ⟨k0, v0⟩ := hd
      by_cases h0 : k0 = k
      · subst h0
        by_cases hk : k0 = key <;> simp [dictInsert, dictGet, hk]
      · by_cases hk : k0 = key
        · subst hk
          have : k ≠ k0 := fun h => h0 h.symm
          simp [dictInsert, dictGet, h0, this]
        · simp [dictInsert, dictGet, h0, hk, ih]

theorem dictGet_eq_none_of_not_mem (d : Dict) (key : String)
    (h : key ∉ d.map Prod.fst) : dictGet d key = Option.none := by
  induction d with
  | nil => rfl
  | cons hd tl ih =>
      obtain ⟨k0, v0⟩ := hd
      simp only [List.map_cons, List.mem_cons, not_or] at h
      have hne : k0 ≠ key := fun hk => h.1 hk.symm
      simp [dictGet, hne, ih h.2]

theorem dictGet_update (o : Dict) (h : (o.map Prod.fst).Nodup) (d : Dict) (key : String) :
    dictGet (dictUpdate d o) key =
      match dictGet o key with
      | some v => some v
      | Option.none => dictGet d key := by
  induction o generalizing d with
  | nil => rfl
  | cons hd tl ih =>
      obtain ⟨k0, v0⟩ := hd
      simp only [List.map_cons, List.nodup_cons] at h
      have step : dictUpdate d ((k0, v0) :: tl) = dictUpdate (dictInsert d k0 v0) tl := rfl
      rw [step, ih h.2]
      by_cases hk : k0 = key
      · subst hk
        rw [dictGet_eq_none_of_not_mem tl k0 h.1]
        simp [dictGet, dictGet_insert]
      · cases htl : dictGet tl key <;> simp [dictGet, hk, dictGet_insert, htl]

theorem dictGet_filter_notNone (o : Dict) (h : (o.map Prod.fst).Nodup) (key : String) :
    dictGet (o.filter fun kv => notNone kv.2) key =
      match dictGet o key with
      | some v => if notNone v then some v else Option.none
      | Option.none => Option.none := by
  induction o with
  | nil => rfl
  | cons hd tl ih =>
      obtain ⟨k0, v0⟩ := hd
      simp only [List.map_cons, List.nodup_cons] at h
      by_cases hk : k0 = key
      · subst hk
        cases hv0 : notNone v0
        · have hnotin : k0 ∉ (tl.filter fun kv => notNone kv.2).map Prod.fst := by
            intro hmem
            exact h.1 (((List.filter_sublist tl).map Prod.fst).subset hmem)
          simp [List.filter_cons, hv0, dictGet, dictGet_eq_none_of_not_mem _ _ hnotin]
        · simp [List.filter_cons, hv0, dictGet]
      · cases hv0 : notNone v0 <;>
          simp [List.filter_cons, hv0, dictGet, hk, ih h.2]

theorem notNone_eq_true_iff (v : Value) : notNone v = true ↔ v ≠ Value.none := by
  cases v <;> simp [notNone]

/-- Keys of the merge result are controlled by the two lemmas above; this is the
merge shape of `load` on dict input. -/
theorem load_dict_eq (defaults O : Dict) :
    ScoutFSConfig.load defaults (ScoutFSConfig.LoadArg.dict O) =
      dictUpdate defaults (O.filter fun kv => notNone kv.2) := rfl

/-- C1: loading an override mapping keeps every non-null override value
exactly, keeps each default value when the key has no non-null override, and
a key whose only occurrence is a null-valued override entry stays absent. -/
theorem C1_load_merges_non_null_overrides (defaults O : Dict)
    (hO : (O.map Prod.fst).Nodup) :
    (∀ k v, dictGet O k = some v → v ≠ Value.none →
        dictGet (ScoutFSConfig.load defaults (ScoutFSConfig.LoadArg.dict O)) k = some v) ∧
    (∀ k, (∀ v, dictGet O k = some v → v = Value.none) →
        dictGet (ScoutFSConfig.load defaults (ScoutFSConfig.LoadArg.dict O)) k =
          dictGet defaults k) ∧
    (∀ k, dictGet defaults k = Option.none → dictGet O k = some Value.none →
        dictGet (ScoutFSConfig.load defaults (ScoutFSConfig.LoadArg.dict O)) k =
          Option.none) := by
  have hfO : ((O.filter fun kv => notNone kv.2).map Prod.fst).Nodup :=
    hO.sublist ((List.filter_sublist O).map Prod.fst)
  refine ⟨fun k v hv hvn => ?_, fun k hnull => ?_, fun k hd hv => ?_⟩
  · have hnn : notNone v = true := (notNone_eq_true_iff v).mpr hvn
    rw [load_dict_eq, dictGet_update _ hfO, dictGet_filter_notNone _ hO, hv]
    simp [hnn]
  · rw [load_dict_eq, dictGet_update _ hfO, dictGet_filter_notNone _ hO]
    cases hov : dictGet O k with
    | none => rfl
    | some v =>
        have : v = Value.none := hnull v hov
        subst this
        rfl
  · rw [load_dict_eq, dictGet_update _ hfO, dictGet_filter_notNone _ hO, hv]
    exact hd

theorem C1_load_merges_non_null_overrides_witness :
    dictGet
      (ScoutFSConfig.load [("a", Value.str "x")]
        (ScoutFSConfig.LoadArg.dict [("b", Value.str "y"), ("c", Value.none)])) "b" =
      some (Value.str "y") :=
  (C1_load_merges_non_null_overrides [("a", Value.str "x")]
      [("b", Value.str "y"), ("c", Value.none)] (by decide)).1
    "b" (Value.str "y") (by decide) (by decide)

/-- C6: `load` is total — for null, string, or mapping input it returns a
mapping, with the value fully characterized case by case. -/
theorem C6_load_total_returns_mapping (defaults : Dict) (arg : ScoutFSConfig.LoadArg) :
    ∃ r : Dict, ScoutFSConfig.load defaults arg = r ∧
      r = match arg with
          | ScoutFSConfig.LoadArg.none => defaults
          | ScoutFSConfig.LoadArg.str _ => defaults
          | ScoutFSConfig.LoadArg.dict o =>
              dictUpdate defaults (o.filter fun kv => notNone kv.2) := by
  cases arg <;> exact ⟨_, rfl, rfl⟩

/-- C8: `load` on any string argument returns the defaults snapshot unchanged,
identically to `load` on null; the string contents are never inspected. -/
theorem C8_load_string_ignores_contents (defaults : Dict) (s : String) :
    ScoutFSConfig.load defaults (ScoutFSConfig.LoadArg.str s) = defaults ∧
    ScoutFSConfig.load defaults (ScoutFSConfig.LoadArg.str s) =
      ScoutFSConfig.load defaults ScoutFSConfig.LoadArg.none :=
  ⟨rfl, rfl⟩

theorem validate_creds_bad (config : Dict)
    (hb : (falsy (dictGet config "username") || falsy (dictGet config "password")) = true) :
    ScoutFSConfig.validate config = Except.error credentialsErr := by
  simp [ScoutFSConfig.validate, hb, credentialsErr]

theorem validate_creds_ok (config : Dict)
    (hb : (falsy (dictGet config "username") || falsy (dictGet config "password")) = false) :
    ScoutFSConfig.validate config =
      match dictGet config "api_url" with
      | Option.none => Except.error (PyError.keyError "api_url")
      | some (Value.str u) =>
          if pyStartsWith u "http://" || pyStartsWith u "https://" then Except.ok ()
          else Except.error urlSchemeErr
      | some _ => Except.error (PyError.attributeError "object has no attribute startswith") := by
  simp [ScoutFSConfig.validate, hb, urlSchemeErr]

theorem falsy_str_ne (s : String) (h : s ≠ "") : falsy (some (Value.str s)) = false := by
  simp only [falsy]
  exact beq_eq_false_iff_ne.mpr h

/-- C2: `validate` raises the "must be provided" `ValueError` whenever the
username or password entry is missing, null, or the empty string, and the
credentials check never raises when both entries are present non-empty
strings; the message indeed contains "must be provided". -/
theorem C2_validate_requires_credentials (config : Dict) :
    ((dictGet config "username" = Option.none ∨
      dictGet config "username" = some Value.none ∨
      dictGet config "username" = some (Value.str "") ∨
      dictGet config "password" = Option.none ∨
      dictGet config "password" = some Value.none ∨
      dictGet config "password" = some (Value.str "")) →
        ScoutFSConfig.validate config = Except.error credentialsErr) ∧
    (∀ u p, dictGet config "username" = some (Value.str u) → u ≠ "" →
        dictGet config "password" = some (Value.str p) → p ≠ "" →
        ScoutFSConfig.validate config ≠ Except.error credentialsErr) ∧
    (∃ pre post, credentialsErr =
        PyError.valueError (pre ++ "must be provided" ++ post)) := by
  refine ⟨fun h => ?_, fun u p hu hu0 hp hp0 => ?_,
    ⟨"Both username and password ", " for authentication", rfl⟩⟩
  · refine validate_creds_bad config ?_
    rcases h with h | h | h | h | h | h <;> rw [h] <;> simp [falsy]
  · have hb : (falsy (dictGet config "username") || falsy (dictGet config "password")) = false := by
      rw [hu, hp, falsy_str_ne u hu0, falsy_str_ne p hp0]
      rfl
    rw [validate_creds_ok config hb]
    cases ha : dictGet config "api_url" with
    | none => simp [credentialsErr]
    | some v =>
        cases v with
        | str u' =>
            cases hs : (pyStartsWith u' "http://" || pyStartsWith u' "https://") <;>
              simp [hs, credentialsErr, urlSchemeErr]
        | none => simp [credentialsErr]
        | bool b => simp [credentialsErr]
        | int n => simp [credentialsErr]
        | float f => simp [credentialsErr]

theorem C2_validate_requires_credentials_witness :
    ScoutFSConfig.validate [("api_url", Value.str "https://hsm.dmawi.de:8080/v1")] =
      Except.error credentialsErr :=
  (C2_validate_requires_credentials
      [("api_url", Value.str "https://hsm.dmawi.de:8080/v1")]).1 (Or.inl (by decide))

/-- C3: with non-empty string credentials and a string `api_url`, `validate`
raises exactly when the value starts with neither `http://` nor `https://`
(case-sensitive); in particular it rejects `""`, `"test.host"` and
`"ftp://test.host"` and accepts `"https://test.host:8080/v1"` and `"http://x"`. -/
theorem C3_validate_url_scheme (config : Dict) (u pu pp : String)
    (hu : dictGet config "username" = some (Value.str pu)) (hu0 : pu ≠ "")
    (hp : dictGet config "password" = some (Value.str pp)) (hp0 : pp ≠ "")
    (ha : dictGet config "api_url" = some (Value.str u)) :
    ((∃ e, ScoutFSConfig.validate config = Except.error e) ↔
      (pyStartsWith u "http://" || pyStartsWith u "https://") = false) ∧
    (∀ b, b ∈ (["", "test.host", "ftp://test.host"] : List String) →
        ScoutFSConfig.validate
          [("username", Value.str "a"), ("password", Value.str "b"),
           ("api_url", Value.str b)] = Except.error urlSchemeErr) ∧
    (∀ g, g ∈ (["https://test.host:8080/v1", "http://x"] : List String) →
        ScoutFSConfig.validate
          [("username", Value.str "a"), ("password", Value.str "b"),
           ("api_url", Value.str g)] = Except.ok ()) := by
  have hb : (falsy (dictGet config "username") || falsy (dictGet config "password")) = false := by
    rw [hu, hp, falsy_str_ne pu hu0, falsy_str_ne pp hp0]
    rfl
  refine ⟨?_, fun b hbad => ?_, fun g hgood => ?_⟩
  · rw [validate_creds_ok config hb, ha]
    cases hs : (pyStartsWith u "http://" || pyStartsWith u "https://") <;> simp [hs]
  · fin_cases hbad <;> decide
  · fin_cases hgood <;> decide

theorem C3_validate_url_scheme_witness :
    (∃ e, ScoutFSConfig.validate
        [("username", Value.str "a"), ("password", Value.str "b"),
         ("api_url", Value.str "ftp://test.host")] = Except.error e) ↔
      (pyStartsWith "ftp://test.host" "http://" ||
        pyStartsWith "ftp://test.host" "https://") = false :=
  (C3_validate_url_scheme
      [("username", Value.str "a"), ("password", Value.str "b"),
       ("api_url", Value.str "ftp://test.host")]
      "ftp://test.host" "a" "b" (by decide) (by decide) (by decide) (by decide)
      (by decide)).1

/-- C9: the prefix check accepts a string equal to the prefix itself, so with
non-empty string credentials `validate` succeeds on the bare schemes
`"https://"` and `"http://"`. -/
theorem C9_validate_accepts_bare_scheme (config : Dict) (u p : String)
    (hu : dictGet config "username" = some (Value.str u)) (hu0 : u ≠ "")
    (hp : dictGet config "password" = some (Value.str p)) (hp0 : p ≠ "") :
    (dictGet config "api_url" = some (Value.str "https://") →
        ScoutFSConfig.validate config = Except.ok ()) ∧
    (dictGet config "api_url" = some (Value.str "http://") →
        ScoutFSConfig.validate config = Except.ok ()) := by
  have hb : (falsy (dictGet config "username") || falsy (dictGet config "password")) = false := by
    rw [hu, hp, falsy_str_ne u hu0, falsy_str_ne p hp0]
    rfl
  exact ⟨fun ha => by rw [validate_creds_ok config hb, ha]; decide,
    fun ha => by rw [validate_creds_ok config hb, ha]; decide⟩

theorem C9_validate_accepts_bare_scheme_witness :
    ScoutFSConfig.validate
      [("username", Value.str "a"), ("password", Value.str "b"),
       ("api_url", Value.str "https://")] = Except.ok () :=
  (C9_validate_accepts_bare_scheme
      [("username", Value.str "a"), ("password", Value.str "b"),
       ("api_url", Value.str "https://")]
      "a" "b" (by decide) (by decide) (by decide) (by decide)).1 (by decide)

/-- C5 counterexample: with non-empty credentials, a mapping without an
`api_url` key makes `validate` raise `KeyError` (not the validation
`ValueError`), and a non-string `api_url` makes it raise `AttributeError`. -/
theorem C5_counterexample_other_error_kinds :
    ScoutFSConfig.validate [("username", Value.str "u"), ("password", Value.str "p")] =
      Except.error (PyError.keyError "api_url") ∧
    ScoutFSConfig.validate
      [("username", Value.str "u"), ("password", Value.str "p"),
       ("api_url", Value.int 5)] =
      Except.error (PyError.attributeError "object has no attribute startswith") := by
  decide

/-- C5 amended: for every configuration mapping that contains a string-valued
`api_url` entry, every error `validate` raises is the single `ValueError`
kind, raised for exactly two conditions — falsy credentials, and an `api_url`
that starts with neither recognized scheme. -/
theorem C5_validate_single_error_kind (config : Dict) (u : String)
    (ha : dictGet config "api_url" = some (Value.str u)) :
    (ScoutFSConfig.validate config = Except.ok () ∨
     ScoutFSConfig.validate config = Except.error credentialsErr ∨
     ScoutFSConfig.validate config = Except.error urlSchemeErr) ∧
    (ScoutFSConfig.validate config = Except.error credentialsErr ↔
      (falsy (dictGet config "username") || falsy (dictGet config "password")) = true) ∧
    (ScoutFSConfig.validate config = Except.error urlSchemeErr ↔
      ((falsy (dictGet config "username") || falsy (dictGet config "password")) = false ∧
       (pyStartsWith u "http://" || pyStartsWith u "https://") = false)) := by
  have hmsg : credentialsErr ≠ urlSchemeErr := by decide
  cases hb : (falsy (dictGet config "username") || falsy (dictGet config "password")) with
  | true =>
      rw [validate_creds_bad config hb]
      exact ⟨Or.inr (Or.inl rfl),
        ⟨fun _ => rfl, fun _ => rfl⟩,
        ⟨fun hcon => absurd (Except.error.inj hcon) hmsg,
         fun hcon => Bool.noConfusion hcon.1⟩⟩
  | false =>
      by_cases hs : (pyStartsWith u "http://" || pyStartsWith u "https://") = true
      · have hval : ScoutFSConfig.validate config = Except.ok () := by
          rw [validate_creds_ok config hb, ha]
          simp [hs]
        rw [hval]
        exact ⟨Or.inl rfl,
          ⟨fun hcon => Except.noConfusion hcon, fun hcon => Bool.noConfusion hcon⟩,
          ⟨fun hcon => Except.noConfusion hcon,
           fun hcon => Bool.noConfusion (hs.symm.trans hcon.2)⟩⟩
      · have hs0 : (pyStartsWith u "http://" || pyStartsWith u "https://") = false := by
          simpa using hs
        have hval : ScoutFSConfig.validate config = Except.error urlSchemeErr := by
          rw [validate_creds_ok config hb, ha]
          simp [hs0]
        rw [hval]
        exact ⟨Or.inr (Or.inr rfl),
          ⟨fun hcon => absurd (Except.error.inj hcon).symm hmsg,
           fun hcon => Bool.noConfusion hcon⟩,
          ⟨fun _ => ⟨rfl, hs0⟩, fun _ => rfl⟩⟩

theorem C5_validate_single_error_kind_witness :
    ScoutFSConfig.validate
        [("username", Value.str "u"), ("password", Value.str "p"),
         ("api_url", Value.str "test.host")] = Except.ok () ∨
    ScoutFSConfig.validate
        [("username", Value.str "u"), ("password", Value.str "p"),
         ("api_url", Value.str "test.host")] = Except.error credentialsErr ∨
    ScoutFSConfig.validate
        [("username", Value.str "u"), ("password", Value.str "p"),
         ("api_url", Value.str "test.host")] = Except.error urlSchemeErr :=
  (C5_validate_single_error_kind
      [("username", Value.str "u"), ("password", Value.str "p"),
       ("api_url", Value.str "test.host")]
      "test.host" (by decide)).1

theorem dictGet_cons_eq (k : String) (v : Value) (d : Dict) :
    dictGet ((k, v) :: d) k = some v := by
  simp [dictGet]

theorem dictGet_cons_ne (k0 key : String) (v : Value) (d : Dict) (h : k0 ≠ key) :
    dictGet ((k0, v) :: d) key = dictGet d key := by
  simp [dictGet, h]

theorem pyFloatOf_error_of_parse_none (s : String) (h : pyFloatParse s = Option.none) :
    pyFloatOf s =
      Except.error (PyError.valueError ("could not convert string to float: " ++ s)) := by
  simp [pyFloatOf, h]

theorem pyIntOf_error_of_parse_none (s : String) (h : pyIntParse s = Option.none) :
    pyIntOf s =
      Except.error (PyError.valueError ("invalid literal for int with base 10: " ++ s)) := by
  simp [pyIntOf, h]

/-- C7: with `SCOUTFS_API_URL` unset, the defaults snapshot composes
`api_url` from host, port and version with their documented fallbacks, and
`ssl_verify` is the case-insensitive comparison of `SCOUTFS_SSL_VERIFY`
(default `"False"`) with `"true"`; in particular custom.host/9000/2 with
`SCOUTFS_SSL_VERIFY=true` yields `"https://custom.host:9000/v2"` and `true`. -/
theorem C7_default_api_url_composition (env : Env) (D : Dict)
    (hurl : envGet env "SCOUTFS_API_URL" = Option.none)
    (hD : ScoutFSConfig.DEFAULT_CONFIG env = Except.ok D) :
    dictGet D "api_url" = some (Value.str
      ("https://" ++ (envGet env "SCOUTFS_API_HOST").getD "hsm.dmawi.de" ++ ":" ++
       (envGet env "SCOUTFS_API_PORT").getD "8080" ++ "/v" ++
       (envGet env "SCOUTFS_API_VERSION").getD "1")) ∧
    dictGet D "ssl_verify" = some (Value.bool
      (pyLower ((envGet env "SCOUTFS_SSL_VERIFY").getD "False") == "true")) ∧
    (∃ D2, ScoutFSConfig.DEFAULT_CONFIG
        [("SCOUTFS_API_HOST", "custom.host"), ("SCOUTFS_API_PORT", "9000"),
         ("SCOUTFS_API_VERSION", "2"), ("SCOUTFS_SSL_VERIFY", "true")] = Except.ok D2 ∧
      dictGet D2 "api_url" = some (Value.str "https://custom.host:9000/v2") ∧
      dictGet D2 "ssl_verify" = some (Value.bool true)) := by
  unfold ScoutFSConfig.DEFAULT_CONFIG at hD
  iterate 5 (split at hD <;> try exact Except.noConfusion hD)
  injection hD with h
  subst h
  refine ⟨?_, ?_, ?_⟩
  · rw [dictGet_cons_eq, hurl]
  · rw [dictGet_cons_ne "api_url" "ssl_verify" _ _ (by decide),
      dictGet_cons_ne "username" "ssl_verify" _ _ (by decide),
      dictGet_cons_ne "password" "ssl_verify" _ _ (by decide),
      dictGet_cons_eq]
  · exact ⟨[ ("api_url", Value.str "https://custom.host:9000/v2"),
             ("username", Value.none),
             ("password", Value.none),
             ("ssl_verify", Value.bool true),
             ("ssl_cert", Value.none),
             ("connect_timeout", Value.float (PyFloat.finite 30)),
             ("request_timeout", Value.float (PyFloat.finite 300)),
             ("max_retries", Value.int 3),
             ("retry_delay", Value.float (PyFloat.finite 1)),
             ("token_cache_ttl", Value.int 300) ],
           by decide, by decide, by decide⟩

theorem C7_default_api_url_composition_witness :
    dictGet
      [ ("api_url", Value.str "https://custom.host:9000/v2"),
        ("username", Value.none),
        ("password", Value.none),
        ("ssl_verify", Value.bool true),
        ("ssl_cert", Value.none),
        ("connect_timeout", Value.float (PyFloat.finite 30)),
        ("request_timeout", Value.float (PyFloat.finite 300)),
        ("max_retries", Value.int 3),
        ("retry_delay", Value.float (PyFloat.finite 1)),
        ("token_cache_ttl", Value.int 300) ] "api_url" =
      some (Value.str
        ("https://" ++
          (envGet
            [("SCOUTFS_API_HOST", "custom.host"), ("SCOUTFS_API_PORT", "9000"),
             ("SCOUTFS_API_VERSION", "2"), ("SCOUTFS_SSL_VERIFY", "true")]
            "SCOUTFS_API_HOST").getD "hsm.dmawi.de" ++ ":" ++
          (envGet
            [("SCOUTFS_API_HOST", "custom.host"), ("SCOUTFS_API_PORT", "9000"),
             ("SCOUTFS_API_VERSION", "2"), ("SCOUTFS_SSL_VERIFY", "true")]
            "SCOUTFS_API_PORT").getD "8080" ++ "/v" ++
          (envGet
            [("SCOUTFS_API_HOST", "custom.host"), ("SCOUTFS_API_PORT", "9000"),
             ("SCOUTFS_API_VERSION", "2"), ("SCOUTFS_SSL_VERIFY", "true")]
            "SCOUTFS_API_VERSION").getD "1")) :=
  (C7_default_api_url_composition
      [("SCOUTFS_API_HOST", "custom.host"), ("SCOUTFS_API_PORT", "9000"),
       ("SCOUTFS_API_VERSION", "2"), ("SCOUTFS_SSL_VERIFY", "true")]
      [ ("api_url", Value.str "https://custom.host:9000/v2"),
        ("username", Value.none),
        ("password", Value.none),
        ("ssl_verify", Value.bool true),
        ("ssl_cert", Value.none),
        ("connect_timeout", Value.float (PyFloat.finite 30)),
        ("request_timeout", Value.float (PyFloat.finite 300)),
        ("max_retries", Value.int 3),
        ("retry_delay", Value.float (PyFloat.finite 1)),
        ("token_cache_ttl", Value.int 300) ]
      (by decide) (by decide)).1

/-- C4: `get_scoutfs_config` is exactly load-then-validate-then-return — a
validation success returns the loaded mapping unchanged, a validation failure
propagates with no result — and with username/password overrides `"u"`/`"p"`
over the empty-environment defaults it returns those credentials. -/
theorem C4_get_config_composition :
    (∀ defaults O,
        (ScoutFSConfig.validate
            (ScoutFSConfig.load defaults (ScoutFSConfig.LoadArg.dict O)) = Except.ok () →
          get_scoutfs_config defaults O =
            Except.ok (ScoutFSConfig.load defaults (ScoutFSConfig.LoadArg.dict O))) ∧
        (∀ e, ScoutFSConfig.validate
            (ScoutFSConfig.load defaults (ScoutFSConfig.LoadArg.dict O)) = Except.error e →
          get_scoutfs_config defaults O = Except.error e)) ∧
    (∀ D, ScoutFSConfig.DEFAULT_CONFIG [] = Except.ok D →
        ∃ r, get_scoutfs_config D
            [("username", Value.str "u"), ("password", Value.str "p")] = Except.ok r ∧
          dictGet r "username" = some (Value.str "u") ∧
          dictGet r "password" = some (Value.str "p")) := by
  refine ⟨fun defaults O => ⟨fun hv => ?_, fun e hv => ?_⟩, fun D hD => ?_⟩
  · simp [get_scoutfs_config, hv]
  · simp [get_scoutfs_config, hv]
  · have h0 : ScoutFSConfig.DEFAULT_CONFIG [] = Except.ok
        [ ("api_url", Value.str "https://hsm.dmawi.de:8080/v1"),
          ("username", Value.none),
          ("password", Value.none),
          ("ssl_verify", Value.bool false),
          ("ssl_cert", Value.none),
          ("connect_timeout", Value.float (PyFloat.finite 30)),
          ("request_timeout", Value.float (PyFloat.finite 300)),
          ("max_retries", Value.int 3),
          ("retry_delay", Value.float (PyFloat.finite 1)),
          ("token_cache_ttl", Value.int 300) ] := by decide
    rw [h0] at hD
    injection hD with h
    subst h
    exact ⟨[ ("api_url", Value.str "https://hsm.dmawi.de:8080/v1"),
             ("username", Value.str "u"),
             ("password", Value.str "p"),
             ("ssl_verify", Value.bool false),
             ("ssl_cert", Value.none),
             ("connect_timeout", Value.float (PyFloat.finite 30)),
             ("request_timeout", Value.float (PyFloat.finite 300)),
             ("max_retries", Value.int 3),
             ("retry_delay", Value.float (PyFloat.finite 1)),
             ("token_cache_ttl", Value.int 300) ],
           by decide, by decide, by decide⟩

theorem C4_get_config_composition_witness :
    get_scoutfs_config [] [] = Except.error credentialsErr :=
  (C4_get_config_composition.1 [] []).2 credentialsErr (by decide)

/-- C10: the defaults snapshot computation itself fails whenever one of the
three float-converted variables or two int-converted variables holds a string
the numeric conversion rejects; in particular `SCOUTFS_MAX_RETRIES=abc`
raises the int-conversion `ValueError` before any load can succeed. -/
theorem C10_default_config_conversion_failure :
    (∀ env : Env,
        (pyFloatParse ((envGet env "SCOUTFS_CONNECT_TIMEOUT").getD "30.0") = Option.none ∨
         pyFloatParse ((envGet env "SCOUTFS_REQUEST_TIMEOUT").getD "300.0") = Option.none ∨
         pyIntParse ((envGet env "SCOUTFS_MAX_RETRIES").getD "3") = Option.none ∨
         pyFloatParse ((envGet env "SCOUTFS_RETRY_DELAY").getD "1.0") = Option.none ∨
         pyIntParse ((envGet env "SCOUTFS_TOKEN_CACHE_TTL").getD "300") = Option.none) →
        ∃ e, ScoutFSConfig.DEFAULT_CONFIG env = Except.error e) ∧
    ScoutFSConfig.DEFAULT_CONFIG [("SCOUTFS_MAX_RETRIES", "abc")] =
      Except.error (PyError.valueError "invalid literal for int with base 10: abc") := by
  refine ⟨fun env h => ?_, by decide⟩
  unfold ScoutFSConfig.DEFAULT_CONFIG
  cases h1 : pyFloatOf ((envGet env "SCOUTFS_CONNECT_TIMEOUT").getD "30.0") with
  | error e => exact ⟨e, rfl⟩
  | ok ct =>
  cases h2 : pyFloatOf ((envGet env "SCOUTFS_REQUEST_TIMEOUT").getD "300.0") with
  | error e => exact ⟨e, rfl⟩
  | ok rt =>
  cases h3 : pyIntOf ((envGet env "SCOUTFS_MAX_RETRIES").getD "3") with
  | error e => exact ⟨e, rfl⟩
  | ok mr =>
  cases h4 : pyFloatOf ((envGet env "SCOUTFS_RETRY_DELAY").getD "1.0") with
  | error e => exact ⟨e, rfl⟩
  | ok rd =>
  cases h5 : pyIntOf ((envGet env "SCOUTFS_TOKEN_CACHE_TTL").getD "300") with
  | error e => exact ⟨e, rfl⟩
  | ok ttl =>
      exfalso
      rcases h with hc | hc | hc | hc | hc
      · simp [pyFloatOf, hc] at h1
      · simp [pyFloatOf, hc] at h2
      · simp [pyIntOf, hc] at h3
      · simp [pyFloatOf, hc] at h4
      · simp [pyIntOf, hc] at h5

theorem C10_default_config_conversion_failure_witness :
    ∃ e, ScoutFSConfig.DEFAULT_CONFIG [("SCOUTFS_MAX_RETRIES", "abc")] =
      Except.error e :=
  C10_default_config_conversion_failure.1 [("SCOUTFS_MAX_RETRIES", "abc")]
    (Or.inr (Or.inr (Or.inl (by decide))))

example : pyIntParse "3" = some 3 := by decide
example : pyIntParse "abc" = Option.none := by decide
example : pyIntParse " -1_0 " = some (-10) := by decide
example : pyFloatParse "30.0" = some (PyFloat.finite 30) := by decide
example : pyFloatParse "1e3" = some (PyFloat.finite 1000) := by decide
example : pyFloatParse "-Inf" = some (PyFloat.inf true) := by decide
example : pyFloatParse "1." = some (PyFloat.finite 1) := by decide
example : pyFloatParse ".5" = some (PyFloat.finite (mkRat 1 2)) := by decide
example : pyFloatParse "1__0" = Option.none := by decide
example : pyStartsWith "https://" "https://" = true := by decide
example : pyLower "False" = "false" := by rfl
example :
    ScoutFSConfig.DEFAULT_CONFIG [] = Except.ok
      [ ("api_url", Value.str "https://hsm.dmawi.de:8080/v1"),
        ("username", Value.none),
        ("password", Value.none),
        ("ssl_verify", Value.bool false),
        ("ssl_cert", Value.none),
        ("connect_timeout", Value.float (PyFloat.finite 30)),
        ("request_timeout", Value.float (PyFloat.finite 300)),
        ("max_retries", Value.int 3),
        ("retry_delay", Value.float (PyFloat.finite 1)),
        ("token_cache_ttl", Value.int 300) ] := by decide
